import Mathlib

/-!
Verification of the Enrollment and Progress Tracking Engine of the
`lms_backend` repository (Python/FastAPI/SQLAlchemy), as a shallow
embedding in Lean 4.

The embedding follows the source files
  app/services/course.py      (EnrollmentService)
  app/api/v1/courses.py       (enrollment routes)
  app/api/v1/analytics.py     (tutor analytics)
  app/models/course.py        (Course, Enrollment, LessonProgress models)

Database tables become lists of records inside a `DB` state; SQLAlchemy
queries become `List.find?` and `List.filter`; Python floats that carry
progress and money amounts become `Rat`; timestamps become `Nat` seconds;
raised exceptions become an `Err` sum carried through `Except`.
-/

namespace LMS

/-- Error taxonomy of the service layer: `ResourceNotFoundError`,
`ValidationError` and `AuthorizationError` from `app/core/errors.py`
(HTTP 404 and 403 raised directly in routes map to the same kinds);
`integrityError` is the `sqlalchemy.exc.IntegrityError` the Postgres
backend raises at commit when an INSERT violates a declared constraint,
carrying the violated constraint; no service code catches it. -/
inductive Err where
  | resourceNotFound : String → Err
  | validation : String → Err
  | authorization : String → Err
  | integrityError : String → Err
deriving Repr, DecidableEq

/-- Row of the `users` table; only the columns the enrollment engine
reads (`id`, `role`) are kept. -/
structure User where
  id : Nat
  role : String
deriving Repr, DecidableEq

/-- Row of the `courses` table; only the columns the enrollment engine
reads. `status` ranges over draft, published, archived, scheduled and
`enrollmentType` over free, paid, invite_only (`app/models/course.py`). -/
structure Course where
  id : Nat
  createdBy : Nat
  status : String
  enrollmentType : String
  totalLessons : Nat
  title : String
deriving Repr, DecidableEq

/-- Row of the `enrollments` table (`app/models/course.py`, class
`Enrollment`).  Column defaults of the model: `status` active,
`progress_percentage` 0.0, `completed_lessons` 0, `total_lessons` 0,
`payment_status` pending, `enrollment_date` now(). -/
structure Enrollment where
  id : Nat
  courseId : Nat
  studentId : Nat
  status : String
  progressPercentage : Rat
  completedLessons : Nat
  totalLessons : Nat
  paymentStatus : String
  paymentAmount : Option Rat
  enrollmentDate : Nat
  completionDate : Option Nat
deriving Repr, DecidableEq

/-- Row of the `lesson_progress` table (`app/models/course.py`, class
`LessonProgress`). -/
structure LessonProgress where
  id : Nat
  enrollmentId : Nat
  lessonId : Nat
  status : String
  completionPercentage : Rat
  videoCompleted : Bool
  quizCompleted : Bool
  assignmentCompleted : Bool
  startedAt : Option Nat
  completedAt : Option Nat
  lastAccessedAt : Option Nat
deriving Repr, DecidableEq

/-- The relational store: the four tables the engine touches plus the
id sequence that assigns primary keys. -/
structure DB where
  courses : List Course
  users : List User
  enrollments : List Enrollment
  lessonProgress : List LessonProgress
  nextId : Nat
deriving Repr, DecidableEq

/-- Query of `CourseService.get_course`: `select(Course).where(Course.id
== course_id)`, `scalar_one_or_none`. -/
def get_course (db : DB) (course_id : Nat) : Option Course :=
  db.courses.find? (fun c => c.id == course_id)

/-- Query used by `enroll_in_course` and `bulk_enroll_students` to look
for an existing enrollment of the `(course_id, student_id)` pair. -/
def find_enrollment_pair (db : DB) (course_id student_id : Nat) : Option Enrollment :=
  db.enrollments.find? (fun e => e.courseId == course_id && e.studentId == student_id)

/-- `EnrollmentService.enroll_in_course` (`app/services/course.py`).
Checks the course exists, that its status is published or draft, and
that no enrollment for the pair exists; the service itself never looks
the student up.  Then `db.add`/`db.commit` inserts an `Enrollment`
built from the constructor arguments of the source plus the column
defaults of the model.  `Enrollment.student_id` is declared
`ForeignKey("users.id")` (`app/models/course.py`), so when no user row
carries `student_id` the INSERT violates that constraint at commit and
the backend raises an `IntegrityError` that `enroll_in_course` does not
catch; the embedding surfaces it as `Err.integrityError`.  The
`course_id` foreign key cannot fire here since the course row was just
fetched.  `now` stands for the `server_default=func.now()` of
`enrollment_date`. -/
def enroll_in_course (db : DB) (course_id student_id now : Nat) :
    Except Err (DB × Enrollment) :=
  match get_course db course_id with
  | none => .error (.resourceNotFound "Course not found")
  | some course =>
    if course.status != "published" && course.status != "draft" then
      .error (.validation ("Cannot enroll in course with status: " ++ course.status))
    else
      match find_enrollment_pair db course_id student_id with
      | some _ => .error (.validation "Student is already enrolled in this course")
      | none =>
        if (db.users.find? (fun u => u.id == student_id)).isNone then
          .error (.integrityError "enrollments_student_id_fkey")
        else
          let e : Enrollment :=
            { id := db.nextId
              courseId := course_id
              studentId := student_id
              status := "active"
              progressPercentage := 0
              completedLessons := 0
              totalLessons := 0
              paymentStatus := if course.enrollmentType == "paid" then "pending" else "paid"
              paymentAmount := none
              enrollmentDate := now
              completionDate := none }
          .ok ({ db with enrollments := db.enrollments ++ [e], nextId := db.nextId + 1 }, e)

/-- `EnrollmentService.cancel_enrollment`: 404 if the row is absent,
otherwise sets `status = "dropped"` on the row and commits; the row is
never deleted. -/
def cancel_enrollment (db : DB) (enrollment_id : Nat) : Except Err DB :=
  match db.enrollments.find? (fun e => e.id == enrollment_id) with
  | none => .error (.resourceNotFound "Enrollment not found")
  | some _ =>
    .ok { db with
      enrollments := db.enrollments.map
        (fun e => if e.id == enrollment_id then { e with status := "dropped" } else e) }

/-- Query shared by both branches of `update_lesson_progress`: the
first `lesson_progress` row of the `(enrollment_id, lesson_id)` pair. -/
def lpRow (db : DB) (enrollment_id lesson_id : Nat) : Option LessonProgress :=
  db.lessonProgress.find? (fun r => r.enrollmentId == enrollment_id && r.lessonId == lesson_id)

/-- Field merge of the UPDATE branch of
`EnrollmentService.update_lesson_progress`: always writes `status`,
`video_completed`, `completion_percentage` (100 when completed else 0)
and `last_accessed_at`; writes `started_at` only when it is still null;
writes `completed_at` only when the status is completed and it is still
null. -/
def applyLPUpdate (now : Nat) (status : String) (video_completed : Bool)
    (r : LessonProgress) : LessonProgress :=
  { r with
    status := status
    videoCompleted := video_completed
    completionPercentage := if status == "completed" then 100 else 0
    lastAccessedAt := some now
    startedAt := if r.startedAt.isNone then some now else r.startedAt
    completedAt :=
      if status == "completed" && r.completedAt.isNone then some now else r.completedAt }

/-- `EnrollmentService.update_lesson_progress` (`app/services/course.py`).
If a row for the pair exists it is updated in place via `applyLPUpdate`
and the refreshed row is returned (the source refetches it by primary
key); otherwise a new row is inserted with `started_at = now`,
`completed_at = now` exactly when the status is completed, and the
remaining completion flags at their column defaults.  The parent
`Enrollment` row is not touched. -/
def update_lesson_progress (db : DB) (enrollment_id lesson_id : Nat)
    (video_completed : Bool) (status : String) (now : Nat) : DB × LessonProgress :=
  match lpRow db enrollment_id lesson_id with
  | some r0 =>
    ({ db with
        lessonProgress := db.lessonProgress.map
          (fun s => if s.id == r0.id then applyLPUpdate now status video_completed s else s) },
     applyLPUpdate now status video_completed r0)
  | none =>
    let r : LessonProgress :=
      { id := db.nextId
        enrollmentId := enrollment_id
        lessonId := lesson_id
        status := status
        completionPercentage := if status == "completed" then 100 else 0
        videoCompleted := video_completed
        quizCompleted := false
        assignmentCompleted := false
        startedAt := some now
        completedAt := if status == "completed" then some now else none
        lastAccessedAt := some now }
    ({ db with lessonProgress := db.lessonProgress ++ [r], nextId := db.nextId + 1 }, r)

/-- Route `mark_lesson_complete` (`app/api/v1/courses.py`,
POST /enrollments/id/lessons/id/complete): 404 when the enrollment is
absent, 403 when the caller is neither the enrolled student nor a
privileged role, otherwise delegates to `update_lesson_progress` with
`video_completed=True, status="completed"`.  No enrollment field is
recomputed afterwards. -/
def mark_lesson_complete (db : DB) (current_user : User)
    (enrollment_id lesson_id now : Nat) : Except Err (DB × LessonProgress) :=
  match db.enrollments.find? (fun e => e.id == enrollment_id) with
  | none => .error (.resourceNotFound "Enrollment not found")
  | some enrollment =>
    if enrollment.studentId != current_user.id
        && !(["instructor", "tutor", "organization_admin", "super_admin"].contains
              current_user.role) then
      .error (.authorization "You do not have permission to update this enrollment progress")
    else
      .ok (update_lesson_progress db enrollment_id lesson_id true "completed" now)

/-- One element of `BulkEnrollmentCreate.enrollments`
(`app/schemas/course.py`).  The payment metadata other than the amount
is never read before the failing constructor call, so only the fields
the loop consults are kept. -/
structure BulkEnrollmentItem where
  studentId : Nat
  enrollmentType : String
  paymentAmount : Option Rat
deriving Repr, DecidableEq

/-- Per item outcome reported by `bulk_enroll_students`
(`BulkEnrollmentResult` in `app/schemas/course.py`). -/
structure BulkEnrollmentResult where
  studentId : Nat
  success : Bool
  enrollmentId : Option Nat
  errorMessage : Option String
deriving Repr, DecidableEq

/-- Aggregate result of `bulk_enroll_students`
(`BulkEnrollmentResponse` in `app/schemas/course.py`). -/
structure BulkEnrollmentResponse where
  totalRequested : Nat
  successfulEnrollments : Nat
  failedEnrollments : Nat
  results : List BulkEnrollmentResult
deriving Repr, DecidableEq

/-- Message of the `TypeError` raised by the SQLAlchemy declarative
constructor when `bulk_enroll_students` passes the keyword
`enrollment_type`, which is not a column of the `Enrollment` model. -/
def bulkTypeErrorMsg : String :=
  "\x27enrollment_type\x27 is an invalid keyword argument for Enrollment"

/-- Body of the per item loop of `EnrollmentService.bulk_enroll_students`:
record a failure when the student row is absent or an enrollment for the
pair already exists; otherwise the source executes
`Enrollment(course_id=..., student_id=..., enrollment_type=..., ...)`.
The `Enrollment` model (`app/models/course.py`) has no `enrollment_type`
column, so that constructor raises
`TypeError: ` followed by `bulkTypeErrorMsg`; the surrounding
`except Exception` records the item as failed with `str(e)` and the
loop continues.  No enrollment row is ever inserted on this path. -/
def bulk_enroll_item (db : DB) (course_id : Nat) (item : BulkEnrollmentItem) :
    DB × BulkEnrollmentResult :=
  if (db.users.find? (fun u => u.id == item.studentId)).isNone then
    (db, { studentId := item.studentId, success := false, enrollmentId := none,
           errorMessage := some "Student not found" })
  else if (find_enrollment_pair db course_id item.studentId).isSome then
    (db, { studentId := item.studentId, success := false, enrollmentId := none,
           errorMessage := some "Student is already enrolled in this course" })
  else
    (db, { studentId := item.studentId, success := false, enrollmentId := none,
           errorMessage := some bulkTypeErrorMsg })

/-- `EnrollmentService.bulk_enroll_students` (`app/services/course.py`):
verifies the course exists (404) and the caller is its creator or an
organization_admin/instructor (403) — no check of the course status —
then folds the per item loop over the input list, appending one result
per item in input order and counting successes and failures. -/
def bulk_enroll_students (db : DB) (course_id : Nat)
    (items : List BulkEnrollmentItem) (user_id : Nat) :
    Except Err (DB × BulkEnrollmentResponse) :=
  match get_course db course_id with
  | none => .error (.resourceNotFound "Course not found")
  | some course =>
    if course.createdBy != user_id
        && !(match db.users.find? (fun u => u.id == user_id) with
             | some u => u.role == "organization_admin" || u.role == "instructor"
             | none => false) then
      .error (.authorization "You do not have permission to bulk enroll students in this course")
    else
      let final := items.foldl
        (fun (acc : DB × List BulkEnrollmentResult × Nat × Nat) item =>
          let step := bulk_enroll_item acc.1 course_id item
          (step.1, acc.2.1 ++ [step.2],
           acc.2.2.1 + (if step.2.success then 1 else 0),
           acc.2.2.2 + (if step.2.success then 0 else 1)))
        (db, [], 0, 0)
      .ok (final.1,
        { totalRequested := items.length
          successfulEnrollments := final.2.2.1
          failedEnrollments := final.2.2.2
          results := final.2.1 })

/-- Course growth of `get_tutor_analytics` (`app/api/v1/analytics.py`):
`((total_courses - prev_courses) / prev_courses * 100) if prev_courses > 0
else 0.0`. -/
def tutor_course_growth (total_courses prev_courses : Nat) : Rat :=
  if prev_courses > 0 then ((total_courses : Rat) - prev_courses) / prev_courses * 100 else 0

/-- Enrollment growth of `get_tutor_analytics`
(`app/api/v1/analytics.py`): same guard and formula over the enrollment
counts of the current and previous window. -/
def tutor_enrollment_growth (total_enrollments prev_enrollments : Nat) : Rat :=
  if prev_enrollments > 0 then
    ((total_enrollments : Rat) - prev_enrollments) / prev_enrollments * 100
  else 0

/-- Month over month growth of
`EnrollmentService.get_enrollment_analytics` (`app/services/course.py`):
`enrollment_growth = 0`, overwritten by the formula only when
`previous_month_enrollments > 0`. -/
def monthly_enrollment_growth (current_month previous_month : Nat) : Rat :=
  if previous_month > 0 then
    ((current_month : Rat) - previous_month) / previous_month * 100
  else 0

/-- Student distribution of `get_tutor_analytics`
(`app/api/v1/analytics.py`): counts of enrollments with status active,
completed and dropped, under the fixed labels of the source. -/
def student_distribution (enrollments : List Enrollment) : List String × List Nat :=
  (["Active", "Completed", "Dropped"],
   [(enrollments.filter (fun e => e.status == "active")).length,
    (enrollments.filter (fun e => e.status == "completed")).length,
    (enrollments.filter (fun e => e.status == "dropped")).length])

/-- Number of daily trend buckets of `get_tutor_analytics`:
`trend_days = 7 if period == "7d" else (30 if period == "30d" else 90)`;
the 90 branch also covers the `all` period. -/
def trendDays (period : String) : Nat :=
  if period == "7d" then 7 else if period == "30d" then 30 else 90

/-- Midnight truncation `date.replace(hour=0, minute=0, second=0,
microsecond=0)` on a timestamp in seconds. -/
def dayStart (t : Nat) : Nat := t / 86400 * 86400

/-- One bucket count of the enrollment trend loop: enrollments of the
scoped courses whose `enrollment_date` lies in `[lo, hi)`. -/
def countEnrollmentsBetween (enrollments : List Enrollment) (courseIds : List Nat)
    (lo hi : Nat) : Nat :=
  (enrollments.filter (fun e =>
    courseIds.contains e.courseId
      && decide (lo ≤ e.enrollmentDate) && decide (e.enrollmentDate < hi))).length

/-- Reference midnight of bucket `i` of the trend loop:
`date = now - timedelta(days=trend_days - 1 - i)` truncated to its
day start. -/
def trendBucketStart (now : Nat) (period : String) (i : Nat) : Nat :=
  dayStart (now - (trendDays period - 1 - i) * 86400)

/-- Enrollment trend data of `get_tutor_analytics`: for
`i in range(trend_days)` the count of scoped enrollments whose creation
timestamp falls on the day `now - (trend_days - 1 - i)` days, zero
included; labels are emitted for the same days in the same order. -/
def enrollment_trend (enrollments : List Enrollment) (courseIds : List Nat)
    (now : Nat) (period : String) : List Nat :=
  (List.range (trendDays period)).map (fun i =>
    let ds := trendBucketStart now period i
    countEnrollmentsBetween enrollments courseIds ds (ds + 86400))

/-! Concrete fixtures used by witnesses and counterexamples. -/

/-- A published free course with four lessons. -/
def exCourse : Course :=
  { id := 1, createdBy := 9, status := "published", enrollmentType := "free",
    totalLessons := 4, title := "Algebra" }

/-- The same course archived and paid. -/
def exArchivedCourse : Course :=
  { exCourse with status := "archived", enrollmentType := "paid" }

/-- The instructor owning `exCourse`. -/
def exInstructor : User := { id := 9, role := "instructor" }

/-- A student. -/
def exStudentA : User := { id := 2, role := "student" }

/-- A second student. -/
def exStudentB : User := { id := 3, role := "student" }

/-- An active enrollment of student 2 in course 1 whose
`total_lessons` snapshot is 4 and whose progress is 0. -/
def exEnrollment : Enrollment :=
  { id := 10, courseId := 1, studentId := 2, status := "active",
    progressPercentage := 0, completedLessons := 0, totalLessons := 4,
    paymentStatus := "paid", paymentAmount := none, enrollmentDate := 500,
    completionDate := none }

/-- Store with one published course, three users and no enrollments. -/
def exDB : DB :=
  { courses := [exCourse], users := [exInstructor, exStudentA, exStudentB],
    enrollments := [], lessonProgress := [], nextId := 100 }

/-- Store in which student 2 is enrolled in course 1. -/
def exDBEnrolled : DB := { exDB with enrollments := [exEnrollment] }

/-- Store of `exDBEnrolled` with the course archived; student 3 is not
enrolled. -/
def exDBArchived : DB := { exDBEnrolled with courses := [exArchivedCourse] }

/-- The three enrollments of the distribution example: progress 0, 45,
100 with statuses active, active, completed. -/
def exDistEnrollments : List Enrollment :=
  [{ exEnrollment with id := 21, status := "active", progressPercentage := 0 },
   { exEnrollment with id := 22, status := "active", progressPercentage := 45 },
   { exEnrollment with id := 23, status := "completed", progressPercentage := 100 }]

/-- A bulk item for student 3. -/
def exItemB : BulkEnrollmentItem :=
  { studentId := 3, enrollmentType := "free", paymentAmount := none }

/-- A bulk item for a student id that exists in no user row. -/
def exItemMissing : BulkEnrollmentItem :=
  { studentId := 404, enrollmentType := "free", paymentAmount := none }

/-!  Theorems.  -/

/-- C2 (counterexample): enrolling student 2 in the published course 1,
which has four lessons, produces an enrollment whose `total_lessons` is
0, not the course lesson count 4 — the snapshot claimed by the spec
never happens. -/
theorem C2_counterexample :
    (enroll_in_course exDB 1 2 1000).map (fun x => x.2.totalLessons) = .ok 0
    ∧ exCourse.totalLessons = 4 ∧ (0 : Nat) ≠ 4 :=
  ⟨rfl, rfl, by decide⟩

/-- C2 (amended): on success, `enroll_in_course` creates an enrollment
with status active, progress 0, `completed_lessons = 0`,
`total_lessons = 0` (the model default — no snapshot of the course
lesson count), and payment status pending exactly when the course
enrollment type is paid (else paid), appending it to the store. -/
theorem C2_amended_enroll_fields (db : DB) (cid sid now : Nat) (c : Course)
    (db' : DB) (e : Enrollment)
    (hc : get_course db cid = some c)
    (h : enroll_in_course db cid sid now = .ok (db', e)) :
    e.status = "active" ∧ e.progressPercentage = 0 ∧ e.completedLessons = 0
      ∧ e.totalLessons = 0
      ∧ e.paymentStatus = (if c.enrollmentType == "paid" then "pending" else "paid")
      ∧ db'.enrollments = db.enrollments ++ [e] := by
  unfold enroll_in_course at h
  rw [hc] at h
  dsimp only at h
  by_cases hs : (c.status != "published" && c.status != "draft") = true
  · rw [if_pos hs] at h
    exact absurd h (by simp)
  · rw [if_neg hs] at h
    cases hfe : find_enrollment_pair db cid sid with
    | some e0 =>
      rw [hfe] at h
      exact absurd h (by simp)
    | none =>
      rw [hfe] at h
      by_cases hu : (db.users.find? (fun u => u.id == sid)).isNone = true
      · rw [if_pos hu] at h
        exact absurd h (by simp)
      · rw [if_neg hu] at h
        simp only [Except.ok.injEq, Prod.mk.injEq] at h
        obtain ⟨hdb, he⟩ := h
        subst hdb he
        exact ⟨rfl, rfl, rfl, rfl, rfl, rfl⟩

/-- C2 (witness): the amended claim instantiated on `exDB`. -/
theorem C2_amended_enroll_fields_witness :
    ∃ db' e, enroll_in_course exDB 1 2 1000 = .ok (db', e)
      ∧ (e.status = "active" ∧ e.progressPercentage = 0 ∧ e.completedLessons = 0
          ∧ e.totalLessons = 0
          ∧ e.paymentStatus = (if exCourse.enrollmentType == "paid" then "pending" else "paid")
          ∧ db'.enrollments = exDB.enrollments ++ [e]) := by
  refine ⟨_, _, rfl, C2_amended_enroll_fields exDB 1 2 1000 exCourse _ _ rfl rfl⟩

/-- C3 (counterexample): enrolling the nonexistent student 99 in the
published course 1 does not fail with NotFound as the claim states —
the service never looks the student up, all its checks pass, and the
commit raises the unhandled foreign-key IntegrityError instead, which
is not a NotFound error for any message. -/
theorem C3_counterexample :
    exDB.users.find? (fun u => u.id == 99) = none
    ∧ enroll_in_course exDB 1 99 1000
        = .error (.integrityError "enrollments_student_id_fkey")
    ∧ ∀ msg, (Err.integrityError "enrollments_student_id_fkey")
        ≠ .resourceNotFound msg :=
  ⟨rfl, rfl, fun _ h => Err.noConfusion h⟩

/-- C3 (amended): the outcomes of `enroll_in_course` are exactly:
NotFound when the course is absent; ValidationError when the course
status is neither published nor draft; ValidationError (the Conflict
case) when any enrollment for the pair already exists regardless of its
status; the unhandled foreign-key IntegrityError — never NotFound, the
service performs no student lookup — when every check passes but no
user row carries the student id; and success otherwise. -/
theorem C3_amended_enroll_failure_cases (db : DB) (cid sid now : Nat) :
    (get_course db cid = none →
      enroll_in_course db cid sid now = .error (.resourceNotFound "Course not found"))
    ∧ (∀ c, get_course db cid = some c →
        (¬(c.status = "published" ∨ c.status = "draft") →
          enroll_in_course db cid sid now
            = .error (.validation ("Cannot enroll in course with status: " ++ c.status)))
        ∧ ((c.status = "published" ∨ c.status = "draft") →
            (∀ e0, find_enrollment_pair db cid sid = some e0 →
              enroll_in_course db cid sid now
                = .error (.validation "Student is already enrolled in this course"))
            ∧ (find_enrollment_pair db cid sid = none →
                (db.users.find? (fun u => u.id == sid) = none →
                  enroll_in_course db cid sid now
                    = .error (.integrityError "enrollments_student_id_fkey"))
                ∧ (∀ u0, db.users.find? (fun u => u.id == sid) = some u0 →
                    (enroll_in_course db cid sid now).isOk = true)))) := by
  refine ⟨?_, ?_⟩
  · intro h
    unfold enroll_in_course
    rw [h]
  · intro c hc
    constructor
    · intro hns
      have h1 : c.status ≠ "published" := fun h => hns (Or.inl h)
      have h2 : c.status ≠ "draft" := fun h => hns (Or.inr h)
      unfold enroll_in_course
      rw [hc]
      simp [h1, h2]
    · intro hs
      constructor
      · intro e0 he0
        unfold enroll_in_course
        rw [hc]
        dsimp only
        rcases hs with h1 | h1 <;> simp [h1, he0]
      · intro hne
        constructor
        · intro hu
          unfold enroll_in_course
          rw [hc]
          dsimp only
          rcases hs with h1 | h1 <;> simp [h1, hne, hu]
        · intro u0 hu
          unfold enroll_in_course
          rw [hc]
          dsimp only
          rcases hs with h1 | h1 <;>
            simp [h1, hne, hu, Except.isOk, Except.toBool]

/-- C3 (witness): the amended characterization instantiated on concrete
stores: missing course 5 gives NotFound, the archived course gives the
status ValidationError, the already-enrolled pair gives the Conflict
ValidationError, a fresh pair with the nonexistent student 99 raises
the foreign-key IntegrityError, and a fresh pair with the existing
student 2 succeeds. -/
theorem C3_amended_enroll_failure_cases_witness :
    enroll_in_course exDB 5 2 1000 = .error (.resourceNotFound "Course not found")
    ∧ enroll_in_course exDBArchived 1 3 1000
        = .error (.validation ("Cannot enroll in course with status: " ++ "archived"))
    ∧ enroll_in_course exDBEnrolled 1 2 1000
        = .error (.validation "Student is already enrolled in this course")
    ∧ enroll_in_course exDB 1 99 1000
        = .error (.integrityError "enrollments_student_id_fkey")
    ∧ (enroll_in_course exDB 1 2 1000).isOk = true :=
  ⟨(C3_amended_enroll_failure_cases exDB 5 2 1000).1 rfl,
   ((C3_amended_enroll_failure_cases exDBArchived 1 3 1000).2 exArchivedCourse rfl).1
     (by decide),
   (((C3_amended_enroll_failure_cases exDBEnrolled 1 2 1000).2 exCourse rfl).2
     (Or.inl rfl)).1 exEnrollment rfl,
   ((((C3_amended_enroll_failure_cases exDB 1 99 1000).2 exCourse rfl).2
     (Or.inl rfl)).2 rfl).1 rfl,
   ((((C3_amended_enroll_failure_cases exDB 1 2 1000).2 exCourse rfl).2
     (Or.inl rfl)).2 rfl).2 exStudentA rfl⟩

/-- C4 (counterexample): on the three enrollments with progress
{0, 45, 100} and statuses {active, active, completed}, the code
partitions by status and returns Active/Completed/Dropped counts
[2, 1, 0], not the claimed {completed: 1, in_progress: 1,
not_started: 1}. -/
theorem C4_counterexample :
    student_distribution exDistEnrollments = (["Active", "Completed", "Dropped"], [2, 1, 0])
    ∧ [2, 1, 0] ≠ [1, 1, 1] :=
  ⟨rfl, by decide⟩

/-- C4 (amended): `student_distribution` partitions enrollments by
enrollment status into Active, Completed and Dropped counts (progress
percentages play no role): whenever every enrollment in scope carries
one of the three statuses, the three counts sum to the number of
enrollments. -/
theorem C4_amended_distribution (es : List Enrollment)
    (h : ∀ e ∈ es, e.status = "active" ∨ e.status = "completed" ∨ e.status = "dropped") :
    (student_distribution es).1 = ["Active", "Completed", "Dropped"]
    ∧ ((student_distribution es).2).sum = es.length := by
  refine ⟨rfl, ?_⟩
  induction es with
  | nil => simp [student_distribution]
  | cons e es ih =>
    have he := h e (List.mem_cons_self e es)
    have ihs := ih (fun x hx => h x (List.mem_cons_of_mem _ hx))
    rcases he with h1 | h1 | h1 <;>
      simp [student_distribution, List.filter_cons, h1] at ihs ⊢ <;> omega

/-- C4 (witness): the amended claim on the three example enrollments:
the labels are Active/Completed/Dropped and the counts sum to 3. -/
theorem C4_amended_distribution_witness :
    (student_distribution exDistEnrollments).1 = ["Active", "Completed", "Dropped"]
    ∧ ((student_distribution exDistEnrollments).2).sum = exDistEnrollments.length :=
  C4_amended_distribution exDistEnrollments (by decide)

/-- C8 (confirmed): every period-over-period growth computation — the
course and enrollment growth of the tutor analytics and the month over
month growth of the course enrollment analytics — yields 0 when the
previous count is 0 and (current - previous) / previous * 100 when the
previous count is positive. -/
theorem C8_growth_zero_guard (current previous : Nat) (hp : 0 < previous) :
    tutor_course_growth current 0 = 0
    ∧ tutor_enrollment_growth current 0 = 0
    ∧ monthly_enrollment_growth current 0 = 0
    ∧ tutor_course_growth current previous
        = ((current : Rat) - previous) / previous * 100
    ∧ tutor_enrollment_growth current previous
        = ((current : Rat) - previous) / previous * 100
    ∧ monthly_enrollment_growth current previous
        = ((current : Rat) - previous) / previous * 100 := by
  unfold tutor_course_growth tutor_enrollment_growth monthly_enrollment_growth
  refine ⟨by simp, by simp, by simp, by simp [hp], by simp [hp], by simp [hp]⟩

/-- C8 (witness): previous = 0 with current = 6 reports 0, and
previous = 4 with current = 6 reports the exact formula value. -/
theorem C8_growth_zero_guard_witness :
    0 < 4
    ∧ (tutor_course_growth 6 0 = 0
        ∧ tutor_enrollment_growth 6 0 = 0
        ∧ monthly_enrollment_growth 6 0 = 0
        ∧ tutor_course_growth 6 4 = ((6 : Rat) - 4) / 4 * 100
        ∧ tutor_enrollment_growth 6 4 = ((6 : Rat) - 4) / 4 * 100
        ∧ monthly_enrollment_growth 6 4 = ((6 : Rat) - 4) / 4 * 100) :=
  ⟨by decide, C8_growth_zero_guard 6 4 (by decide)⟩

/-- C9 (confirmed): `cancel_enrollment` fails with NotFound when the
enrollment is absent; otherwise it succeeds without deleting any row,
every row carrying the id ends up with status dropped, and a second
call is a no-op returning the same store without error. -/
theorem C9_cancel_idempotent (db : DB) (eid : Nat) :
    (db.enrollments.find? (fun e => e.id == eid) = none →
      cancel_enrollment db eid = .error (.resourceNotFound "Enrollment not found"))
    ∧ (∀ e0, db.enrollments.find? (fun e => e.id == eid) = some e0 →
        ∃ db', cancel_enrollment db eid = .ok db'
          ∧ db'.enrollments.length = db.enrollments.length
          ∧ (∀ e' ∈ db'.enrollments, e'.id = eid → e'.status = "dropped")
          ∧ cancel_enrollment db' eid = .ok db') := by
  constructor
  · intro h
    unfold cancel_enrollment
    rw [h]
  · intro e0 h0
    have hdrop : ∀ e : Enrollment,
        ((if e.id == eid then { e with status := "dropped" } else e) : Enrollment).id
          = e.id := by
      intro e; split <;> rfl
    refine ⟨_, by unfold cancel_enrollment; rw [h0], by simp, ?_, ?_⟩
    · intro e' he' hid
      simp only [List.mem_map] at he'
      obtain ⟨x, _, hxe⟩ := he'
      by_cases hx : (x.id == eid) = true
      · rw [if_pos hx] at hxe
        exact hxe ▸ rfl
      · rw [if_neg hx] at hxe
        exact absurd (beq_iff_eq.2 (hxe ▸ hid)) hx
    · unfold cancel_enrollment
      have hfind : (db.enrollments.map
            (fun e => if e.id == eid then { e with status := "dropped" } else e)).find?
            (fun e => e.id == eid)
          = some (if e0.id == eid then { e0 with status := "dropped" } else e0) := by
        rw [List.find?_map]
        have hp : ((fun (e : Enrollment) => e.id == eid) ∘
            (fun e => if e.id == eid then { e with status := "dropped" } else e))
            = (fun (e : Enrollment) => e.id == eid) := by
          funext e
          simp only [Function.comp]
          rw [hdrop e]
        rw [hp, h0]
        rfl
      rw [hfind]
      rw [List.map_map]
      have hgg : ((fun (e : Enrollment) =>
            if e.id == eid then { e with status := "dropped" } else e) ∘
          (fun e => if e.id == eid then { e with status := "dropped" } else e))
          = (fun (e : Enrollment) =>
            if e.id == eid then { e with status := "dropped" } else e) := by
        funext e
        simp only [Function.comp]
        by_cases hx : (e.id == eid) = true
        · rw [if_pos hx, if_pos hx]
        · rw [if_neg hx, if_neg hx]
      rw [hgg]

/-- C9 (witness): canceling the concrete enrollment 10 succeeds, keeps
the row count, drops the status, and a second cancel returns the same
store. -/
theorem C9_cancel_idempotent_witness :
    ∃ db', cancel_enrollment exDBEnrolled 10 = .ok db'
      ∧ db'.enrollments.length = exDBEnrolled.enrollments.length
      ∧ (∀ e' ∈ db'.enrollments, e'.id = 10 → e'.status = "dropped")
      ∧ cancel_enrollment db' 10 = .ok db' :=
  (C9_cancel_idempotent exDBEnrolled 10).2 exEnrollment rfl

/-- Updating lesson progress never touches the enrollments table. -/
theorem update_lesson_progress_enrollments (db : DB) (eid lid : Nat)
    (v : Bool) (s : String) (n : Nat) :
    (update_lesson_progress db eid lid v s n).1.enrollments = db.enrollments := by
  unfold update_lesson_progress
  cases h : lpRow db eid lid <;> rfl

/-- C1 (counterexample): student 2 holds enrollment 10 with
`total_lessons = 4` and progress 0; marking lessons 1 and 2 complete
through the mark-lesson-complete route leaves `progress_percentage`
at 0, not the claimed 50 — no recompute of the parent enrollment
happens. -/
theorem C1_counterexample :
    ((mark_lesson_complete exDBEnrolled exStudentA 10 1 1000).toOption.bind
        (fun x => (mark_lesson_complete x.1 exStudentA 10 2 2000).toOption)).map
        (fun x => (x.1.enrollments.find? (fun e => e.id == 10)).map
          Enrollment.progressPercentage)
      = some (some 0)
    ∧ exEnrollment.totalLessons = 4
    ∧ (0 : Rat) ≠ 50 :=
  ⟨rfl, rfl, by norm_num⟩

/-- C1 (amended): a successful mark-lesson-complete call updates only
the `lesson_progress` table; the parent enrollment row — in particular
`completed_lesson_count` and `progress_percentage` — is left exactly as
it was, so no recompute per the §3 formula takes place. -/
theorem C1_amended_no_enrollment_update (db : DB) (u : User) (eid lid n : Nat)
    (db' : DB) (p : LessonProgress)
    (h : mark_lesson_complete db u eid lid n = .ok (db', p)) :
    db'.enrollments = db.enrollments := by
  unfold mark_lesson_complete at h
  cases he : db.enrollments.find? (fun e => e.id == eid) with
  | none =>
    rw [he] at h
    exact absurd h (by simp)
  | some e =>
    rw [he] at h
    dsimp only at h
    split at h
    · exact absurd h (by simp)
    · simp only [Except.ok.injEq] at h
      have hdb : db' = (update_lesson_progress db eid lid true "completed" n).1 := by
        rw [h]
      rw [hdb]
      exact update_lesson_progress_enrollments db eid lid true "completed" n

/-- C1 (witness): the amended claim on the concrete store: marking
lesson 1 complete for enrollment 10 succeeds and the enrollments table
is unchanged. -/
theorem C1_amended_no_enrollment_update_witness :
    ∃ db' p, mark_lesson_complete exDBEnrolled exStudentA 10 1 1000 = .ok (db', p)
      ∧ db'.enrollments = exDBEnrolled.enrollments :=
  ⟨_, _, rfl, C1_amended_no_enrollment_update exDBEnrolled exStudentA 10 1 1000 _ _ rfl⟩

/-- After any `update_lesson_progress` call, the row found for the pair
is exactly the row the call returned. -/
theorem lpRow_update_lesson_progress (db : DB) (eid lid : Nat)
    (v : Bool) (s : String) (n : Nat) :
    lpRow (update_lesson_progress db eid lid v s n).1 eid lid
      = some (update_lesson_progress db eid lid v s n).2 := by
  unfold update_lesson_progress
  cases h : lpRow db eid lid with
  | none =>
    dsimp only
    unfold lpRow at h ⊢
    dsimp only
    rw [List.find?_append, h]
    simp
  | some r0 =>
    dsimp only
    unfold lpRow at h ⊢
    dsimp only
    rw [List.find?_map]
    have hp : ((fun (r : LessonProgress) => r.enrollmentId == eid && r.lessonId == lid) ∘
        (fun s2 => if (s2.id == r0.id) = true then applyLPUpdate n s v s2 else s2))
        = (fun (r : LessonProgress) => r.enrollmentId == eid && r.lessonId == lid) := by
      funext x
      simp only [Function.comp]
      split <;> rfl
    rw [hp, h]
    simp

/-- The returned row of any `update_lesson_progress` call has a set
`started_at`. -/
theorem update_lesson_progress_startedAt_isSome (db : DB) (eid lid : Nat)
    (v : Bool) (s : String) (n : Nat) :
    ((update_lesson_progress db eid lid v s n).2).startedAt.isSome = true := by
  unfold update_lesson_progress
  cases h : lpRow db eid lid with
  | none => rfl
  | some r0 =>
    dsimp only [applyLPUpdate]
    cases hs : r0.startedAt <;> simp [hs]

/-- A set `started_at` survives any `update_lesson_progress` call on
the same pair. -/
theorem update_lesson_progress_startedAt_preserved (db : DB) (eid lid : Nat)
    (v : Bool) (s : String) (n : Nat) (r0 : LessonProgress)
    (h : lpRow db eid lid = some r0) (hs : r0.startedAt.isSome = true) :
    ((update_lesson_progress db eid lid v s n).2).startedAt = r0.startedAt := by
  unfold update_lesson_progress
  rw [h]
  dsimp only [applyLPUpdate]
  obtain ⟨t, ht⟩ := Option.isSome_iff_exists.1 hs
  rw [ht]
  simp

/-- A completed-status call always leaves a set `completed_at` on the
returned row. -/
theorem update_completed_completedAt_isSome (db : DB) (eid lid : Nat)
    (v : Bool) (n : Nat) :
    ((update_lesson_progress db eid lid v "completed" n).2).completedAt.isSome = true := by
  unfold update_lesson_progress
  cases h : lpRow db eid lid with
  | none => rfl
  | some r0 =>
    dsimp only [applyLPUpdate]
    cases hc : r0.completedAt <;> simp [hc]

/-- A set `completed_at` survives a repeated completed-status call on
the same pair. -/
theorem update_completed_completedAt_preserved (db : DB) (eid lid : Nat)
    (v : Bool) (n : Nat) (r0 : LessonProgress)
    (h : lpRow db eid lid = some r0) (hc : r0.completedAt.isSome = true) :
    ((update_lesson_progress db eid lid v "completed" n).2).completedAt = r0.completedAt := by
  unfold update_lesson_progress
  rw [h]
  dsimp only [applyLPUpdate]
  obtain ⟨t, ht⟩ := Option.isSome_iff_exists.1 hc
  rw [ht]
  simp

/-- Fold of an arbitrary sequence of subsequent `update_lesson_progress`
calls for one `(enrollment, lesson)` pair; each call supplies its
`video_completed` flag, `status` and timestamp. -/
def touchMany (db : DB) (eid lid : Nat) (calls : List (Bool × String × Nat)) : DB :=
  calls.foldl (fun d c => (update_lesson_progress d eid lid c.1 c.2.1 c.2.2).1) db

/-- Once the pair has a row with a set `started_at`, no sequence of
further calls changes that value. -/
theorem touchMany_startedAt (eid lid : Nat) (calls : List (Bool × String × Nat)) :
    ∀ (db : DB) (r : LessonProgress), lpRow db eid lid = some r →
      r.startedAt.isSome = true →
      ∃ r2, lpRow (touchMany db eid lid calls) eid lid = some r2
        ∧ r2.startedAt = r.startedAt := by
  induction calls with
  | nil =>
    intro db r h _
    exact ⟨r, h, rfl⟩
  | cons c cs ih =>
    intro db r h hs
    have h1 := lpRow_update_lesson_progress db eid lid c.1 c.2.1 c.2.2
    have h2 := update_lesson_progress_startedAt_preserved db eid lid c.1 c.2.1 c.2.2 r h hs
    have h3 : ((update_lesson_progress db eid lid c.1 c.2.1 c.2.2).2).startedAt.isSome
        = true := by rw [h2]; exact hs
    obtain ⟨r2, hr2, hr2s⟩ :=
      ih (update_lesson_progress db eid lid c.1 c.2.1 c.2.2).1 _ h1 h3
    refine ⟨r2, ?_, by rw [hr2s, h2]⟩
    simpa only [touchMany, List.foldl_cons] using hr2

/-- C6 (confirmed): for every enrollment and lesson, marking the lesson
completed twice returns the `completed_at` of the first call unchanged
(and set), and the `started_at` established by the first touch is never
overwritten by any sequence of subsequent calls, whatever their status,
flags or timestamps. -/
theorem C6_lesson_timestamps_idempotent (db : DB) (eid lid n1 n2 : Nat)
    (calls : List (Bool × String × Nat)) :
    ((update_lesson_progress (update_lesson_progress db eid lid true "completed" n1).1
        eid lid true "completed" n2).2).completedAt
      = ((update_lesson_progress db eid lid true "completed" n1).2).completedAt
    ∧ ((update_lesson_progress db eid lid true "completed" n1).2).completedAt.isSome = true
    ∧ ∃ r2, lpRow (touchMany (update_lesson_progress db eid lid true "completed" n1).1
          eid lid calls) eid lid = some r2
        ∧ r2.startedAt
            = ((update_lesson_progress db eid lid true "completed" n1).2).startedAt := by
  have h1 := lpRow_update_lesson_progress db eid lid true "completed" n1
  have hc := update_completed_completedAt_isSome db eid lid true n1
  have hs := update_lesson_progress_startedAt_isSome db eid lid true "completed" n1
  exact ⟨update_completed_completedAt_preserved _ eid lid true n2 _ h1 hc, hc,
    touchMany_startedAt eid lid calls _ _ h1 hs⟩

/-- C7 (code bug): bulk enrolling the existing, not-yet-enrolled
student 3 together with the nonexistent student 404 keeps the claimed
counting shape (totalRequested 2, outcomes in input order, one Student
not found failure at the position of 404) but the item for student 3 —
which the claim says succeeds and creates an enrollment — is recorded
as failed with the invalid-keyword TypeError of the `Enrollment`
constructor, zero enrollments are created and the store is returned
unchanged; the claimed N - 1 = 1 successes differ from the actual 0. -/
theorem C7_code_bug_eval :
    bulk_enroll_students exDBEnrolled 1 [exItemB, exItemMissing] 9
      = .ok (exDBEnrolled,
          { totalRequested := 2
            successfulEnrollments := 0
            failedEnrollments := 2
            results := [{ studentId := 3, success := false, enrollmentId := none,
                          errorMessage := some bulkTypeErrorMsg },
                        { studentId := 404, success := false, enrollmentId := none,
                          errorMessage := some "Student not found" }] })
    ∧ (0 : Nat) ≠ 1 :=
  ⟨rfl, by decide⟩

/-- C10 (code bug): single enrollment into the archived course is
rejected with the status ValidationError, and the bulk path indeed
performs no course-status check — the per item outcome is independent
of the courses table — but the bulk item for the existing,
not-yet-enrolled student 3 is recorded as failed with the
invalid-keyword TypeError instead of the success the claim states, and
no enrollment is created. -/
theorem C10_code_bug_eval :
    enroll_in_course exDBArchived 1 3 1000
      = .error (.validation "Cannot enroll in course with status: archived")
    ∧ bulk_enroll_students exDBArchived 1 [exItemB] 9
        = .ok (exDBArchived,
            { totalRequested := 1
              successfulEnrollments := 0
              failedEnrollments := 1
              results := [{ studentId := 3, success := false, enrollmentId := none,
                            errorMessage := some bulkTypeErrorMsg }] })
    ∧ ∀ (db : DB) (cs : List Course) (cid : Nat) (item : BulkEnrollmentItem),
        (bulk_enroll_item { db with courses := cs } cid item).2
          = (bulk_enroll_item db cid item).2 := by
  refine ⟨rfl, rfl, ?_⟩
  intro db cs cid item
  unfold bulk_enroll_item find_enrollment_pair
  dsimp only
  split
  · rfl
  · split <;> rfl

/-- C5 (counterexample): for the 90d and all windows the trend has 90
daily buckets, not the claimed 12 weekly buckets. -/
theorem C5_counterexample :
    (enrollment_trend [] [] 1000000 "90d").length = 90
    ∧ (enrollment_trend [] [] 1000000 "all").length = 90
    ∧ trendDays "90d" = 90 ∧ trendDays "all" = 90
    ∧ (90 : Nat) ≠ 12 :=
  ⟨rfl, rfl, rfl, rfl, by decide⟩

/-- A timestamp falls in the day-long interval starting at a midnight
`q * 86400` exactly when its own day start is that midnight. -/
theorem day_interval_eq (d q : Nat) :
    (decide (q * 86400 ≤ d) && decide (d < q * 86400 + 86400))
      = (dayStart d == q * 86400) := by
  have key : (q * 86400 ≤ d ∧ d < q * 86400 + 86400) ↔ d / 86400 * 86400 = q * 86400 := by
    omega
  unfold dayStart
  rcases Decidable.em (q * 86400 ≤ d ∧ d < q * 86400 + 86400) with h | h
  · rw [decide_eq_true h.1, decide_eq_true h.2]
    simp [key.1 h]
  · have hne : ¬ (d / 86400 * 86400 = q * 86400) := fun hh => h (key.2 hh)
    rcases Decidable.em (q * 86400 ≤ d) with h1 | h1
    · have h2 : ¬ d < q * 86400 + 86400 := fun hh => h ⟨h1, hh⟩
      rw [decide_eq_true h1, decide_eq_false h2]
      simp [hne]
    · rw [decide_eq_false h1]
      simp [hne]

/-- Counting enrollments inside one day interval equals counting the
enrollments whose creation day start is that day. -/
theorem countEnrollmentsBetween_day (es : List Enrollment) (cids : List Nat) (q : Nat) :
    countEnrollmentsBetween es cids (q * 86400) (q * 86400 + 86400)
      = (es.filter (fun e => cids.contains e.courseId
          && (dayStart e.enrollmentDate == q * 86400))).length := by
  unfold countEnrollmentsBetween
  congr 1
  apply List.filter_congr
  intro e _
  rw [Bool.and_assoc, day_interval_eq e.enrollmentDate q]

/-- C5 (amended): the trend covers `trendDays period` daily buckets —
7 for 7d, 30 for 30d and 90 (daily, not 12 weekly) for 90d and all —
with no gaps: bucket `i` counts exactly the scoped enrollments created
on day `now - (trendDays - 1 - i)` (zero-count buckets included since
every index is present), and the bucket days strictly increase, so the
series is chronological. -/
theorem C5_amended_trend_buckets (es : List Enrollment) (cids : List Nat)
    (now : Nat) (p : String) (i : Nat) (hi : i < trendDays p)
    (hnow : trendDays p * 86400 ≤ now) :
    (enrollment_trend es cids now p).length = trendDays p
    ∧ (enrollment_trend es cids now p)[i]?
        = some ((es.filter (fun e => cids.contains e.courseId
            && (dayStart e.enrollmentDate == trendBucketStart now p i))).length)
    ∧ (∀ j, j < i → trendBucketStart now p j < trendBucketStart now p i) := by
  refine ⟨by simp [enrollment_trend], ?_, ?_⟩
  · unfold enrollment_trend
    rw [List.getElem?_map, List.getElem?_range hi]
    dsimp only [Option.map_some]
    have hq : trendBucketStart now p i
        = (now - (trendDays p - 1 - i) * 86400) / 86400 * 86400 := rfl
    rw [hq]
    exact congrArg some (countEnrollmentsBetween_day es cids _)
  · intro j hj
    have h1 : now - (trendDays p - 1 - i) * 86400
        = (now - (trendDays p - 1 - j) * 86400) + (i - j) * 86400 := by omega
    unfold trendBucketStart dayStart
    rw [h1, Nat.add_mul_div_right _ _ (by norm_num : (0 : Nat) < 86400)]
    omega

/-- C5 (witness): the amended claim at the 7d window, bucket 3, on a
singleton enrollment list. -/
theorem C5_amended_trend_buckets_witness :
    3 < trendDays "7d" ∧ trendDays "7d" * 86400 ≤ 1000000
    ∧ ((enrollment_trend [exEnrollment] [1] 1000000 "7d").length = trendDays "7d"
       ∧ (enrollment_trend [exEnrollment] [1] 1000000 "7d")[3]?
           = some (([exEnrollment].filter (fun e => [1].contains e.courseId
               && (dayStart e.enrollmentDate == trendBucketStart 1000000 "7d" 3))).length)
       ∧ (∀ j, j < 3 → trendBucketStart 1000000 "7d" j < trendBucketStart 1000000 "7d" 3)) :=
  ⟨by decide, by decide,
   C5_amended_trend_buckets [exEnrollment] [1] 1000000 "7d" 3 (by decide) (by decide)⟩

end LMS
